import Mathlib

/-!
Shallow embedding of the orbital-mechanics core of the Interactive Solar
System repository (`src/wasm/src/lib.rs`).  All `f64` arithmetic of the
source is modelled over the real numbers `ℝ`; the source's trigonometric
intrinsics (`sin`, `cos`, `tan`, `sqrt`, `atan2`) become the corresponding
Mathlib real functions.  Definitions keep the source's names.
-/

noncomputable section

open Real

/-- Structure `Vec3` from the source: an ordered triple of real components. -/
@[ext]
structure Vec3 where
  x : ℝ
  y : ℝ
  z : ℝ

namespace Vec3

/-- Constructor `Vec3::new`. -/
def new (x y z : ℝ) : Vec3 := ⟨x, y, z⟩

/-- Method `Vec3::length`: Euclidean magnitude, `(x*x + y*y + z*z).sqrt()`. -/
def length (v : Vec3) : ℝ := Real.sqrt (v.x * v.x + v.y * v.y + v.z * v.z)

end Vec3

/-- Structure `OrbitalElements` from the source: classical Keplerian elements at the
J2000.0 epoch. -/
structure OrbitalElements where
  a : ℝ      -- Semi-major axis (AU)
  e : ℝ      -- Eccentricity
  i : ℝ      -- Inclination (degrees)
  omega : ℝ  -- Longitude of ascending node (degrees)
  w : ℝ      -- Argument of perihelion (degrees)
  m0 : ℝ     -- Mean anomaly at epoch (degrees)
  n : ℝ      -- Mean motion (degrees/day)

/-- Mercury's row of `PLANET_ELEMENTS`. -/
def mercuryElements : OrbitalElements :=
  { a := 0.387098, e := 0.205635, i := 7.004, omega := 48.331, w := 29.124, m0 := 174.796, n := 4.0923 }

/-- Venus's row of `PLANET_ELEMENTS`. -/
def venusElements : OrbitalElements :=
  { a := 0.723332, e := 0.006773, i := 3.394, omega := 76.678, w := 54.884, m0 := 50.115, n := 1.6021 }

/-- Earth's row of `PLANET_ELEMENTS`. -/
def earthElements : OrbitalElements :=
  { a := 1.000001, e := 0.016709, i := 0.000, omega := 0.000, w := 102.937, m0 := 100.464, n := 0.9856 }

/-- Mars's row of `PLANET_ELEMENTS`. -/
def marsElements : OrbitalElements :=
  { a := 1.523679, e := 0.093941, i := 1.849, omega := 49.558, w := 286.502, m0 := 19.373, n := 0.5240 }

/-- Jupiter's row of `PLANET_ELEMENTS`. -/
def jupiterElements : OrbitalElements :=
  { a := 5.204267, e := 0.048775, i := 1.303, omega := 100.464, w := 273.867, m0 := 20.020, n := 0.0831 }

/-- Saturn's row of `PLANET_ELEMENTS`. -/
def saturnElements : OrbitalElements :=
  { a := 9.582017, e := 0.055723, i := 2.484, omega := 113.665, w := 339.392, m0 := 317.020, n := 0.0334 }

/-- Uranus's row of `PLANET_ELEMENTS`. -/
def uranusElements : OrbitalElements :=
  { a := 19.229411, e := 0.047318, i := 0.772, omega := 74.006, w := 96.998, m0 := 142.238, n := 0.0116 }

/-- Neptune's row of `PLANET_ELEMENTS`. -/
def neptuneElements : OrbitalElements :=
  { a := 30.103658, e := 0.008678, i := 1.767, omega := 131.784, w := 272.856, m0 := 256.228, n := 0.0060 }

/-- The static table `PLANET_ELEMENTS`: planet orbital elements at J2000.0. -/
def PLANET_ELEMENTS : List (String × OrbitalElements) :=
  [ ("Mercury", mercuryElements)
  , ("Venus", venusElements)
  , ("Earth", earthElements)
  , ("Mars", marsElements)
  , ("Jupiter", jupiterElements)
  , ("Saturn", saturnElements)
  , ("Uranus", uranusElements)
  , ("Neptune", neptuneElements) ]

/-- The static table `PLANET_DATA`: per-planet physical data as an
11-tuple `(name, radius, color, orbit_radius, axial_tilt, day_length,
year_length, temperature, moons, mass, density)`. -/
def PLANET_DATA : List (String × ℝ × String × ℝ × ℝ × ℝ × ℝ × ℝ × ℕ × ℝ × ℝ) :=
  [ ("Mercury", 0.383, "#8c7853", 0.387, 0.034, 1407.6, 87.97, 340.0, 0, 0.055, 5.427)
  , ("Venus", 0.949, "#ffc649", 0.723, 177.4, 5832.5, 224.7, 737.0, 0, 0.815, 5.243)
  , ("Earth", 1.0, "#6b93d6", 1.0, 23.4, 24.0, 365.25, 288.0, 1, 1.0, 5.514)
  , ("Mars", 0.532, "#c1440e", 1.524, 25.2, 24.6, 687.0, 210.0, 2, 0.107, 3.933)
  , ("Jupiter", 11.21, "#d8ca9d", 5.204, 3.1, 9.9, 4331.0, 165.0, 79, 317.8, 1.326)
  , ("Saturn", 9.45, "#fad5a5", 9.582, 26.7, 10.7, 10747.0, 134.0, 82, 95.2, 0.687)
  , ("Uranus", 4.01, "#4fd0e4", 19.229, 97.8, 17.2, 30589.0, 76.0, 27, 14.5, 1.271)
  , ("Neptune", 3.88, "#4b70dd", 30.104, 28.3, 16.1, 59800.0, 72.0, 14, 17.1, 1.638) ]

/-- Structure `PlanetData` from the source: the output record shape. -/
structure PlanetData where
  name : String
  position : Vec3
  radius : ℝ
  color : String
  orbit_radius : ℝ
  orbit_speed : ℝ
  axial_tilt : ℝ
  day_length : ℝ
  year_length : ℝ
  temperature : ℝ
  moons : ℕ
  mass : ℝ
  density : ℝ

/-- Function `deg_to_rad`: `degrees * PI / 180.0`. -/
def deg_to_rad (degrees : ℝ) : ℝ := degrees * Real.pi / 180.0

/-- The two-argument arctangent, `y.atan2(x)` of Rust's `f64`, on reals:
the angle of the point `(x, y)` in `(-π, π]`, with `atan2 0 0 = 0`. -/
def atan2 (y x : ℝ) : ℝ :=
  if 0 < x then Real.arctan (y / x)
  else if x < 0 then
    (if 0 ≤ y then Real.arctan (y / x) + Real.pi else Real.arctan (y / x) - Real.pi)
  else
    (if 0 < y then Real.pi / 2 else if y < 0 then -(Real.pi / 2) else 0)

/-- The body of `solve_kepler`'s `for` loop, with the remaining iteration
count as fuel: compute `delta_e`, subtract it from the current iterate, and
`break` once `delta_e.abs() < 1e-12`. -/
def solveKeplerLoop (mean_anomaly eccentricity : ℝ) : ℕ → ℝ → ℝ
  | 0, e => e
  | Nat.succ fuel, e =>
    let delta_e := (e - eccentricity * Real.sin e - mean_anomaly) /
      (1 - eccentricity * Real.cos e)
    if |delta_e| < 1e-12 then e - delta_e
    else solveKeplerLoop mean_anomaly eccentricity fuel (e - delta_e)

/-- Function `solve_kepler`: Newton's method for Kepler's equation, starting from
`E₀ = mean_anomaly`, at most 10 loop iterations. -/
def solve_kepler (mean_anomaly eccentricity : ℝ) : ℝ :=
  solveKeplerLoop mean_anomaly eccentricity 10 mean_anomaly

/-- Function `calculate_planet_position`: position from orbital elements and a
Julian date, translated line by line from the source. -/
def calculate_planet_position (elements : OrbitalElements) (julian_date : ℝ) : Vec3 :=
  let days_since_epoch := julian_date - 2451545.0
  let mean_anomaly := deg_to_rad (elements.m0 + elements.n * days_since_epoch)
  let eccentric_anomaly := solve_kepler mean_anomaly elements.e
  let true_anomaly := 2.0 * atan2 (Real.sqrt (1.0 + elements.e) * Real.tan (eccentric_anomaly / 2.0))
    (Real.sqrt (1.0 - elements.e))
  let r := elements.a * (1.0 - elements.e * Real.cos eccentric_anomaly)
  let x_orb := r * Real.cos true_anomaly
  let y_orb := r * Real.sin true_anomaly
  let cos_omega := Real.cos (deg_to_rad elements.omega)
  let sin_omega := Real.sin (deg_to_rad elements.omega)
  let cos_w := Real.cos (deg_to_rad elements.w)
  let sin_w := Real.sin (deg_to_rad elements.w)
  let cos_i := Real.cos (deg_to_rad elements.i)
  let sin_i := Real.sin (deg_to_rad elements.i)
  let x := (cos_omega * cos_w - sin_omega * sin_w * cos_i) * x_orb
    + (-cos_omega * sin_w - sin_omega * cos_w * cos_i) * y_orb
  let y := (sin_omega * cos_w + cos_omega * sin_w * cos_i) * x_orb
    + (-sin_omega * sin_w + cos_omega * cos_w * cos_i) * y_orb
  let z := (sin_w * sin_i) * x_orb + (cos_w * sin_i) * y_orb
  let scale := 2.0
  Vec3.new (x * scale) (z * scale) (y * scale)

/-- Function `planet_positions`: the entry point.  The source walks
`PLANET_ELEMENTS` with its index `i` and reads `PLANET_DATA[i]`; since the
two tables have the same length this is the elementwise zip. -/
def planet_positions (julian_date : ℝ) : List PlanetData :=
  (PLANET_ELEMENTS.zip PLANET_DATA).map fun p =>
    let name := p.1.1
    let elements := p.1.2
    let position := calculate_planet_position elements julian_date
    let d := p.2.2
    { name := name
      position := position
      radius := d.1
      color := d.2.1
      orbit_radius := d.2.2.1
      orbit_speed := 365.25 / d.2.2.2.2.2.1
      axial_tilt := d.2.2.2.1
      day_length := d.2.2.2.2.1
      year_length := d.2.2.2.2.2.1
      temperature := d.2.2.2.2.2.2.1
      moons := d.2.2.2.2.2.2.2.1
      mass := d.2.2.2.2.2.2.2.2.1
      density := d.2.2.2.2.2.2.2.2.2 }

/-!
Spec-side definitions: spelled out from the specification's own words, to
be compared against the definitions translated from the source.
-/

/-- Rotation of a triple about the z-axis by angle `θ`. -/
def rotZ (θ : ℝ) (v : ℝ × ℝ × ℝ) : ℝ × ℝ × ℝ :=
  (Real.cos θ * v.1 - Real.sin θ * v.2.1,
   Real.sin θ * v.1 + Real.cos θ * v.2.1,
   v.2.2)

/-- Rotation of a triple about the x-axis by angle `θ`. -/
def rotX (θ : ℝ) (v : ℝ × ℝ × ℝ) : ℝ × ℝ × ℝ :=
  (v.1,
   Real.cos θ * v.2.1 - Real.sin θ * v.2.2,
   Real.sin θ * v.2.1 + Real.cos θ * v.2.2)

/-- The position transform exactly as the specification words it: true
anomaly by the half-angle identity, distance `r = a(1 - e cos E)`,
in-plane coordinates `(r cos ν, r sin ν)`, the standard three-angle
rotation `Rz(Ω) ∘ Rx(i) ∘ Rz(ω)` into ecliptic `(x, y, z)`, and the
output reordered as `(x, z, y)` with each component scaled by 2.0. -/
def positionTransformSpec (elements : OrbitalElements) (julian_date : ℝ) : Vec3 :=
  let d := julian_date - 2451545.0
  let meanAnomaly := deg_to_rad (elements.m0 + elements.n * d)
  let E := solve_kepler meanAnomaly elements.e
  let ν := 2.0 * atan2 (Real.sqrt (1.0 + elements.e) * Real.tan (E / 2.0))
    (Real.sqrt (1.0 - elements.e))
  let r := elements.a * (1.0 - elements.e * Real.cos E)
  let ecl := rotZ (deg_to_rad elements.omega)
    (rotX (deg_to_rad elements.i)
      (rotZ (deg_to_rad elements.w) (r * Real.cos ν, r * Real.sin ν, 0)))
  ⟨ecl.1 * 2.0, ecl.2.2 * 2.0, ecl.2.1 * 2.0⟩

/-- One Newton-Raphson update for Kepler's equation
`f(E) = E - e sin E - M`, namely `E - f(E) / f'(E)`. -/
def newtonKeplerUpdate (M e E : ℝ) : ℝ :=
  E - (E - e * Real.sin E - M) / (1 - e * Real.cos E)

/-- Newton-Raphson for Kepler's equation as the specification words it:
at most `fuel` more updates, stopping early as soon as the magnitude of
the last correction is below `1e-12`, returning the final iterate. -/
def newtonKeplerIter (M e : ℝ) : ℕ → ℝ → ℝ
  | 0, E => E
  | Nat.succ fuel, E =>
    let E' := newtonKeplerUpdate M e E
    if |E - E'| < 1e-12 then E' else newtonKeplerIter M e fuel E'

/-!
Claim theorems.
-/

/-- Claim C1: for every Julian date `t`, `planet_positions t` returns
exactly 8 records whose names are, in order, Mercury, Venus, Earth, Mars,
Jupiter, Saturn, Uranus, Neptune. -/
theorem planet_positions_names_and_count (t : ℝ) :
    (planet_positions t).length = 8 ∧
    (planet_positions t).map PlanetData.name =
      ["Mercury", "Venus", "Earth", "Mars", "Jupiter", "Saturn", "Uranus", "Neptune"] := by
  constructor <;> rfl

/-- Unfolding lemma for one iteration of the `solve_kepler` loop. -/
lemma solveKeplerLoop_succ (M ecc : ℝ) (fuel : ℕ) (e : ℝ) :
    solveKeplerLoop M ecc (fuel + 1) e =
      (let delta_e := (e - ecc * Real.sin e - M) / (1 - ecc * Real.cos e)
       if |delta_e| < 1e-12 then e - delta_e
       else solveKeplerLoop M ecc fuel (e - delta_e)) := rfl

/-- Claim C9: the Kepler solver at eccentricity 0 returns the mean anomaly
unchanged: the first Newton correction is `(M - 0 - M)/1 = 0`, which is
below the tolerance, so the loop exits on its first iteration. -/
theorem solve_kepler_zero_ecc (M : ℝ) : solve_kepler M 0 = M := by
  show solveKeplerLoop M 0 (9 + 1) M = M
  rw [solveKeplerLoop_succ]
  norm_num

/-- Claim C8: every output record's `orbit_speed` is `365.25 / yearLength`
for that planet's `PLANET_DATA` year length; Earth's is exactly 1 and
Mercury's is `365.25 / 87.97`, which is within `0.002` of `4.153`. -/
theorem planet_positions_orbit_speed (t : ℝ) :
    (planet_positions t).map PlanetData.orbit_speed =
      [365.25 / 87.97, 365.25 / 224.7, 1, 365.25 / 687.0, 365.25 / 4331.0,
       365.25 / 10747.0, 365.25 / 30589.0, 365.25 / 59800.0] ∧
    |365.25 / 87.97 - (4.153 : ℝ)| < 0.002 := by
  constructor
  · simp [planet_positions, PLANET_ELEMENTS, PLANET_DATA]
    norm_num
  · rw [abs_sub_lt_iff]
    norm_num

/-- Claim C2: the position transform translated from the source agrees,
for every orbital-elements value and every Julian date, with the
specification's own wording of the transform (half-angle true anomaly,
`r = a(1 - e cos E)`, in-plane coordinates, the composed rotation
`Rz(Ω) ∘ Rx(i) ∘ Rz(ω)`, and the scaled `(x, z, y)` axis reorder). -/
theorem calculate_planet_position_matches_spec (elements : OrbitalElements) (t : ℝ) :
    calculate_planet_position elements t = positionTransformSpec elements t := by
  dsimp only [calculate_planet_position, positionTransformSpec, rotZ, rotX, Vec3.new]
  refine Vec3.ext ?_ ?_ ?_ <;> dsimp only <;> ring

/-- Unfolding lemma for one iteration of the spec-side Newton solver. -/
lemma newtonKeplerIter_succ (M e : ℝ) (fuel : ℕ) (E : ℝ) :
    newtonKeplerIter M e (fuel + 1) E =
      (let E' := newtonKeplerUpdate M e E
       if |E - E'| < 1e-12 then E' else newtonKeplerIter M e fuel E') := rfl

/-- The source loop and the spec-worded Newton iteration agree for every
fuel value and every starting iterate. -/
lemma solveKeplerLoop_eq_newton (M e : ℝ) :
    ∀ (n : ℕ) (E : ℝ), solveKeplerLoop M e n E = newtonKeplerIter M e n E := by
  intro n
  induction n with
  | zero => intro E; rfl
  | succ k ih =>
    intro E
    rw [solveKeplerLoop_succ, newtonKeplerIter_succ]
    dsimp only
    have harg : E - newtonKeplerUpdate M e E =
        (E - e * Real.sin E - M) / (1 - e * Real.cos E) := by
      rw [newtonKeplerUpdate]; ring
    have hupd : newtonKeplerUpdate M e E =
        E - (E - e * Real.sin E - M) / (1 - e * Real.cos E) := rfl
    rw [harg, hupd]
    split_ifs with h
    · rfl
    · exact ih _

/-- Claim C3: `solve_kepler` is exactly the Newton-Raphson iteration for
Kepler's equation with initial guess `E₀ = M`, at most 10 iterations, and
early exit once the last correction is below `1e-12` in magnitude; being a
Lean function of `M` and `e`, it is pure. -/
theorem solve_kepler_is_newton (M e : ℝ) :
    solve_kepler M e = newtonKeplerIter M e 10 M :=
  solveKeplerLoop_eq_newton M e 10 M

/-- Claim C10: Earth's output position always has vertical component
exactly 0, because Earth's tabulated inclination is 0, so
`sin_i = sin 0 = 0` kills the ecliptic `z`, and the returned vector's
second component is `z * 2.0 = 0`. -/
theorem earth_position_vertical_zero (t : ℝ) :
    (calculate_planet_position earthElements t).y = 0 := by
  have h0 : Real.sin (deg_to_rad (earthElements.i)) = 0 := by
    have : deg_to_rad (earthElements.i) = 0 := by
      simp only [deg_to_rad, earthElements]
      norm_num
    rw [this, Real.sin_zero]
  simp only [calculate_planet_position, Vec3.new, h0]
  ring

/-- Claim C5 counterexample: it is not the case that every eccentricity in
`PLANET_ELEMENTS` is below 0.1 — Mercury's is 0.205635. -/
theorem eccentricity_below_tenth_false :
    ¬ (∀ p ∈ PLANET_ELEMENTS, p.2.e < 0.1) := by
  intro h
  have hm := h ("Mercury", mercuryElements) (by simp [PLANET_ELEMENTS])
  norm_num [mercuryElements] at hm

/-- Claim C5, amended: every eccentricity in the built-in 8-planet table
is less than 0.21 (Mercury's 0.205635 is the largest; the other seven are
below 0.1). -/
theorem eccentricity_below_021 : ∀ p ∈ PLANET_ELEMENTS, p.2.e < 0.21 := by
  intro p hp
  simp only [PLANET_ELEMENTS, List.mem_cons, List.not_mem_nil, or_false] at hp
  rcases hp with rfl | rfl | rfl | rfl | rfl | rfl | rfl | rfl <;>
    norm_num [mercuryElements, venusElements, earthElements, marsElements,
      jupiterElements, saturnElements, uranusElements, neptuneElements]

/-- Witness for the amended C5 at Mercury's table row. -/
theorem eccentricity_below_021_witness :
    ("Mercury", mercuryElements) ∈ PLANET_ELEMENTS ∧
    ("Mercury", mercuryElements).2.e < 0.21 :=
  ⟨by simp [PLANET_ELEMENTS],
   eccentricity_below_021 ("Mercury", mercuryElements) (by simp [PLANET_ELEMENTS])⟩

/-- The three-angle rotation matrix of the source preserves the squared
norm of an in-plane vector `(X, Y)`, given the Pythagorean identities for
the three angle sine/cosine pairs. -/
lemma rotated_norm_sq (cO sO cw sw ci si X Y : ℝ)
    (h1 : sO ^ 2 + cO ^ 2 = 1) (h2 : sw ^ 2 + cw ^ 2 = 1)
    (h3 : si ^ 2 + ci ^ 2 = 1) :
    ((cO * cw - sO * sw * ci) * X + (-cO * sw - sO * cw * ci) * Y) ^ 2
      + ((sw * si) * X + (cw * si) * Y) ^ 2
      + ((sO * cw + cO * sw * ci) * X + (-sO * sw + cO * cw * ci) * Y) ^ 2
      = X ^ 2 + Y ^ 2 := by
  linear_combination
    (X ^ 2 * (cw ^ 2 + sw ^ 2 * ci ^ 2) + Y ^ 2 * (sw ^ 2 + cw ^ 2 * ci ^ 2)
      + 2 * X * Y * (cw * sw * (ci ^ 2 - 1))) * h1
    + (X ^ 2 + Y ^ 2) * h2
    + (X ^ 2 * sw ^ 2 + Y ^ 2 * cw ^ 2 + 2 * X * Y * cw * sw) * h3

/-- A `Vec3` whose squared component sum is `r ^ 2` with `r ≥ 0` has
length `r`. -/
lemma Vec3_length_of_sq (v : Vec3) (r : ℝ) (hr : 0 ≤ r)
    (h : v.x * v.x + v.y * v.y + v.z * v.z = r ^ 2) : v.length = r := by
  rw [Vec3.length, h, Real.sqrt_sq hr]

/-- For nonnegative `a` and eccentricity `0 ≤ e ≤ 1`, the magnitude of the
computed position, divided by the display scale 2, is the heliocentric
distance `a (1 - e cos E)`, which lies in `[a(1-e), a(1+e)]`. -/
lemma position_length_bounds (el : OrbitalElements) (t : ℝ)
    (ha : 0 ≤ el.a) (he0 : 0 ≤ el.e) (he1 : el.e ≤ 1) :
    el.a * (1 - el.e) ≤ (calculate_planet_position el t).length / 2 ∧
    (calculate_planet_position el t).length / 2 ≤ el.a * (1 + el.e) := by
  set E := solve_kepler (deg_to_rad (el.m0 + el.n * (t - 2451545.0))) el.e with hEdef
  set ν := 2.0 * atan2 (Real.sqrt (1.0 + el.e) * Real.tan (E / 2.0))
    (Real.sqrt (1.0 - el.e)) with hνdef
  set r := el.a * (1.0 - el.e * Real.cos E) with hrdef
  have hc1 := Real.cos_le_one E
  have hc2 := Real.neg_one_le_cos E
  have hcnn : (0 : ℝ) ≤ 1 - Real.cos E := by linarith
  have hcnn' : (0 : ℝ) ≤ 1 + Real.cos E := by linarith
  have haee : (0 : ℝ) ≤ el.a * el.e := mul_nonneg ha he0
  have hlow : 0 ≤ el.a * el.e * (1 - Real.cos E) := mul_nonneg haee hcnn
  have hhigh : 0 ≤ el.a * el.e * (1 + Real.cos E) := mul_nonneg haee hcnn'
  have hane : 0 ≤ el.a * (1 - el.e) := mul_nonneg ha (by linarith)
  have hrpos : 0 ≤ r := by
    rw [hrdef]
    nlinarith [hlow, hane]
  have hlen : (calculate_planet_position el t).length = 2 * r := by
    refine Vec3_length_of_sq _ (2 * r) (by linarith) ?_
    dsimp only [calculate_planet_position, Vec3.new]
    rw [← hEdef, ← hνdef, ← hrdef]
    have key := rotated_norm_sq
      (Real.cos (deg_to_rad el.omega)) (Real.sin (deg_to_rad el.omega))
      (Real.cos (deg_to_rad el.w)) (Real.sin (deg_to_rad el.w))
      (Real.cos (deg_to_rad el.i)) (Real.sin (deg_to_rad el.i))
      (r * Real.cos ν) (r * Real.sin ν)
      (Real.sin_sq_add_cos_sq (deg_to_rad el.omega))
      (Real.sin_sq_add_cos_sq (deg_to_rad el.w))
      (Real.sin_sq_add_cos_sq (deg_to_rad el.i))
    have hν := Real.sin_sq_add_cos_sq ν
    linear_combination 4 * key + 4 * r ^ 2 * hν
  rw [hlen]
  have h22 : (2 : ℝ) * r / 2 = r := by ring
  rw [h22, hrdef]
  constructor
  · nlinarith [hlow]
  · nlinarith [hhigh]

/-- Claim C6: for every time `t` and every planet of the element table,
the Euclidean magnitude of the output position divided by the fixed scale
factor 2 lies within `[a(1-e), a(1+e)]` for that planet's semi-major axis
`a` and eccentricity `e`. -/
theorem planet_distance_bounds (t : ℝ) :
    (mercuryElements.a * (1 - mercuryElements.e) ≤
        (calculate_planet_position mercuryElements t).length / 2 ∧
      (calculate_planet_position mercuryElements t).length / 2 ≤
        mercuryElements.a * (1 + mercuryElements.e)) ∧
    (venusElements.a * (1 - venusElements.e) ≤
        (calculate_planet_position venusElements t).length / 2 ∧
      (calculate_planet_position venusElements t).length / 2 ≤
        venusElements.a * (1 + venusElements.e)) ∧
    (earthElements.a * (1 - earthElements.e) ≤
        (calculate_planet_position earthElements t).length / 2 ∧
      (calculate_planet_position earthElements t).length / 2 ≤
        earthElements.a * (1 + earthElements.e)) ∧
    (marsElements.a * (1 - marsElements.e) ≤
        (calculate_planet_position marsElements t).length / 2 ∧
      (calculate_planet_position marsElements t).length / 2 ≤
        marsElements.a * (1 + marsElements.e)) ∧
    (jupiterElements.a * (1 - jupiterElements.e) ≤
        (calculate_planet_position jupiterElements t).length / 2 ∧
      (calculate_planet_position jupiterElements t).length / 2 ≤
        jupiterElements.a * (1 + jupiterElements.e)) ∧
    (saturnElements.a * (1 - saturnElements.e) ≤
        (calculate_planet_position saturnElements t).length / 2 ∧
      (calculate_planet_position saturnElements t).length / 2 ≤
        saturnElements.a * (1 + saturnElements.e)) ∧
    (uranusElements.a * (1 - uranusElements.e) ≤
        (calculate_planet_position uranusElements t).length / 2 ∧
      (calculate_planet_position uranusElements t).length / 2 ≤
        uranusElements.a * (1 + uranusElements.e)) ∧
    (neptuneElements.a * (1 - neptuneElements.e) ≤
        (calculate_planet_position neptuneElements t).length / 2 ∧
      (calculate_planet_position neptuneElements t).length / 2 ≤
        neptuneElements.a * (1 + neptuneElements.e)) :=
  ⟨position_length_bounds mercuryElements t (by norm_num [mercuryElements])
      (by norm_num [mercuryElements]) (by norm_num [mercuryElements]),
   position_length_bounds venusElements t (by norm_num [venusElements])
      (by norm_num [venusElements]) (by norm_num [venusElements]),
   position_length_bounds earthElements t (by norm_num [earthElements])
      (by norm_num [earthElements]) (by norm_num [earthElements]),
   position_length_bounds marsElements t (by norm_num [marsElements])
      (by norm_num [marsElements]) (by norm_num [marsElements]),
   position_length_bounds jupiterElements t (by norm_num [jupiterElements])
      (by norm_num [jupiterElements]) (by norm_num [jupiterElements]),
   position_length_bounds saturnElements t (by norm_num [saturnElements])
      (by norm_num [saturnElements]) (by norm_num [saturnElements]),
   position_length_bounds uranusElements t (by norm_num [uranusElements])
      (by norm_num [uranusElements]) (by norm_num [uranusElements]),
   position_length_bounds neptuneElements t (by norm_num [neptuneElements])
      (by norm_num [neptuneElements]) (by norm_num [neptuneElements])⟩

/-- The Newton divisor `1 - e cos E` is positive whenever `0 ≤ e < 1`. -/
lemma kepler_divisor_pos (e E : ℝ) (h0 : 0 ≤ e) (h1 : e < 1) :
    0 < 1 - e * Real.cos E := by
  nlinarith [Real.cos_le_one E, Real.neg_one_le_cos E]

/-- Claim C7: `planet_positions` is total — for every real time it yields
a complete 8-record result, and for each tabulated eccentricity the Newton
divisor `1 - e cos E` is nonzero (indeed positive) at every real `E`, so
no division by zero can occur in the Kepler iteration. -/
theorem planet_positions_total (t E : ℝ) :
    (planet_positions t).length = 8 ∧
    0 < 1 - mercuryElements.e * Real.cos E ∧
    0 < 1 - venusElements.e * Real.cos E ∧
    0 < 1 - earthElements.e * Real.cos E ∧
    0 < 1 - marsElements.e * Real.cos E ∧
    0 < 1 - jupiterElements.e * Real.cos E ∧
    0 < 1 - saturnElements.e * Real.cos E ∧
    0 < 1 - uranusElements.e * Real.cos E ∧
    0 < 1 - neptuneElements.e * Real.cos E :=
  ⟨rfl,
   kepler_divisor_pos _ E (by norm_num [mercuryElements]) (by norm_num [mercuryElements]),
   kepler_divisor_pos _ E (by norm_num [venusElements]) (by norm_num [venusElements]),
   kepler_divisor_pos _ E (by norm_num [earthElements]) (by norm_num [earthElements]),
   kepler_divisor_pos _ E (by norm_num [marsElements]) (by norm_num [marsElements]),
   kepler_divisor_pos _ E (by norm_num [jupiterElements]) (by norm_num [jupiterElements]),
   kepler_divisor_pos _ E (by norm_num [saturnElements]) (by norm_num [saturnElements]),
   kepler_divisor_pos _ E (by norm_num [uranusElements]) (by norm_num [uranusElements]),
   kepler_divisor_pos _ E (by norm_num [neptuneElements]) (by norm_num [neptuneElements])⟩

end
